import Mathlib

/-!
Shallow embedding of the Health Navigator app (src/app.py) and theorems
settling the specification claims about it.

The app is a single Streamlit script; the pieces the claims are about are:
the condition-to-specialty lookup table, the symptom-vector construction,
the geo-search truncation and per-candidate detail enrichment loop, the
booking-form submit handler, and the doctor-dashboard Accept/Decline
handlers backed by a Firestore document update.
-/

namespace HealthNav

/-! ### Specialty Resolver (app.py lines 369-382) -/

/-- The condition-to-specialty table of app.py lines 369-380, verbatim,
including the trailing space inside the key for hypertension. -/
def specialty_map : List (String × String) :=
  [("Fungal infection", "Dermatologist"), ("Allergy", "Allergist"),
   ("GERD", "Gastroenterologist"),
   ("Acne", "Dermatologist"), ("Pneumonia", "Pulmonologist"),
   ("Jaundice", "Gastroenterologist"),
   ("Migraine", "Neurologist"), ("Hypertension ", "Cardiologist"),
   ("Heart attack", "Cardiologist"),
   ("Paralysis (brain hemorrhage)", "Neurologist"),
   ("Chicken pox", "Dermatologist"),
   ("Malaria", "General Practitioner"), ("Dengue", "General Practitioner"),
   ("Typhoid", "General Practitioner")]

/-- Key lookup in an association list, the semantics of a Python dict
lookup for the dicts built here (all keys distinct). -/
def lookupTable : List (String × String) → String → Option String
  | [], _ => none
  | (k, v) :: rest, c => if c = k then some v else lookupTable rest c

/-- Embeds app.py line 381: that is a dict get of the prediction with
default fallback, so an absent condition yields the fallback specialty. -/
def resolve (condition : String) : String :=
  (lookupTable specialty_map condition).getD "General Practitioner"

/-! ### Symptom Vectorizer (app.py lines 348-365) -/

/-- Embeds the model-input construction of app.py lines 361-364: a dict is
initialised with every catalog symptom mapped to 0 (in catalog order), then
each reported symptom that is a key of the dict is set to 1; a reported
symptom absent from the catalog fails the membership test and is skipped.
Per-symptom dict writes only ever store 1, so the net effect is pointwise:
a catalog entry holds 1 exactly when it occurs among the reported symptoms. -/
def model_input (catalog user_symptoms : List String) : List (String × Nat) :=
  catalog.map fun s => (s, if s ∈ user_symptoms then 1 else 0)

/-- Outcome of the find-doctor handler up to the vector construction.
The constructor for the invalid-input error comes from the specification
error taxonomy; the handler in app.py never produces it (it either rejects
empty input with a warning, or builds the vector). -/
inductive FindDoctorStep
  | rejectedEmptyInput
  | invalidInputError
  | vector (v : List (String × Nat))
  deriving DecidableEq, Repr

/-- Embeds the guard at app.py line 349 followed by the vector construction
at lines 361-365: empty symptom selection or empty location is rejected
with a warning (nothing computed); otherwise the dense vector is built. -/
def vectorizeStep (catalog user_symptoms : List String) (user_location : String) :
    FindDoctorStep :=
  if user_symptoms = [] ∨ user_location = "" then .rejectedEmptyInput
  else .vector (model_input catalog user_symptoms)

/-! ### Provider search and enrichment (app.py lines 386-408) -/

/-- One geo-search result: the place identifier and the fields the search
call already provided, plus the details field the enrichment loop adds
(absent until the loop runs, app.py line 397). -/
structure Doctor where
  place_id : String
  base : List (String × String)
  details : Option (List (String × String)) := none
  deriving DecidableEq, Repr

/-- Embeds app.py line 388: the results field of the places response
(`none` when the key is absent) defaulted to the empty list and truncated
to the first five entries. -/
def doctors_list (places_results : Option (List Doctor)) : List Doctor :=
  (places_results.getD []).take 5

/-- Effect of one detail lookup on one candidate when no exception is
raised: app.py lines 395-397 take the result field of the response,
defaulting to the empty dict, and store it on the candidate. -/
def enrichOne (lookup : String → Except Unit (Option (List (String × String))))
    (d : Doctor) : Doctor :=
  match lookup d.place_id with
  | .error _ => d
  | .ok res => { d with details := some (res.getD []) }

/-- Embeds the enrichment loop of app.py lines 390-402. The loop body has
no exception handler of its own: a raising detail lookup propagates to the
except block of the whole find-doctor flow (line 406), so the candidate it
raised on and every later candidate keep no details. The Boolean records
whether the loop was aborted by such an exception. -/
def enrichLoop (lookup : String → Except Unit (Option (List (String × String)))) :
    List Doctor → List Doctor × Bool
  | [] => ([], false)
  | d :: ds =>
    match lookup d.place_id with
    | .error _ => (d :: ds, true)
    | .ok res =>
      let rest := enrichLoop lookup ds
      ({ d with details := some (res.getD []) } :: rest.1, rest.2)

/-! ### Booking lifecycle (app.py lines 454-486 and 259-308) -/

/-- The Appointment Request document written at app.py lines 471-480.
Status is the stored string, one of Pending, Accepted, Declined. -/
structure AppointmentRecord where
  patient_email : String
  patient_id : String
  patient_name : String
  doctor_name : String
  doctor_place_id : String
  appointment_date : Nat
  appointment_time : Nat
  status : String
  deriving DecidableEq, Repr

/-- The appointments collection: generated document id paired with the
record. -/
abbrev Store := List (String × AppointmentRecord)

/-- Outcome of the booking-form submit handler. -/
inductive BookOutcome
  | nameWarning
  | booked (r : AppointmentRecord)
  deriving DecidableEq, Repr

/-- Embeds the submit handler of app.py lines 465-486: an empty patient
name is rejected with a warning and nothing is written; otherwise a fresh
document is created with the given fields and status Pending (the status
value is hard-coded at line 479). The date widget at line 458 constrains
the submitted date to today or later. -/
def bookSubmit (store : Store) (freshId : String)
    (user_email user_id patient_name_input doctor_name place_id : String)
    (appt_date appt_time : Nat) : Store × BookOutcome :=
  if patient_name_input = "" then (store, .nameWarning)
  else
    let r : AppointmentRecord :=
      { patient_email := user_email, patient_id := user_id,
        patient_name := patient_name_input, doctor_name := doctor_name,
        doctor_place_id := place_id, appointment_date := appt_date,
        appointment_time := appt_time, status := "Pending" }
    (store ++ [(freshId, r)], .booked r)

/-- Embeds the Firestore call at app.py lines 303 and 307: an update of the
single status field of the document with the given id, unconditional on the
current value of that field. All other fields of every record are kept. -/
def updateStatus (store : Store) (appt_id new_status : String) : Store :=
  store.map fun p =>
    if p.1 = appt_id then (p.1, { p.2 with status := new_status }) else p

/-- Embeds the dashboard query of app.py lines 261-263: the appointments
whose doctor place id equals the logged-in doctor profile place id. -/
def visibleAppointments (snapshot : Store) (place_id : String) : Store :=
  snapshot.filter fun p => p.2.doctor_place_id = place_id

/-- Outcome of one Accept/Decline interaction on the dashboard. The last
two constructors come from the specification error taxonomy; the handlers
in app.py never produce them (a record of another doctor is simply not
listed, and a non-Pending record gets no buttons). -/
inductive Outcome
  | notVisible
  | notOffered
  | updated
  | authorizationError
  | invalidTransitionError
  deriving DecidableEq, Repr

/-- Embeds one Accept/Decline attempt of app.py lines 281-308. The page
renders from a snapshot read of the collection: the record must match the
doctor place id filter to be listed at all, and the buttons exist only when
the snapshot status is Pending (line 301). A click then runs the
unconditional single-field status update against the store as it is at
click time, which can differ from the snapshot. -/
def dashboardTransition (snapshot store : Store)
    (actor_place_id appt_id new_status : String) : Outcome × Store :=
  match (visibleAppointments snapshot actor_place_id).find?
      (fun p => p.1 = appt_id) with
  | none => (.notVisible, store)
  | some p =>
    if p.2.status = "Pending" then (.updated, updateStatus store appt_id new_status)
    else (.notOffered, store)

/-- All fields of an appointment record other than status agree. -/
def sameExceptStatus (r s : AppointmentRecord) : Prop :=
  r.patient_email = s.patient_email ∧ r.patient_id = s.patient_id ∧
  r.patient_name = s.patient_name ∧ r.doctor_name = s.doctor_name ∧
  r.doctor_place_id = s.doctor_place_id ∧
  r.appointment_date = s.appointment_date ∧
  r.appointment_time = s.appointment_time

/-! ### Helper lemmas -/

/-- Lookup misses exactly the strings that are not keys of the table. -/
lemma lookupTable_eq_none_of_not_mem (l : List (String × String)) (c : String)
    (h : c ∉ l.map Prod.fst) : lookupTable l c = none := by
  induction l with
  | nil => rfl
  | cons p rest ih =>
    obtain ⟨k, v⟩ := p
    simp only [List.map_cons, List.mem_cons] at h
    push_neg at h
    simp only [lookupTable, if_neg h.1]
    exact ih h.2

/-! ### Theorems for the claims -/

/-- C5: resolve is a deterministic total function on condition strings:
every condition present in the specialty table is sent to its mapped
specialty, and every condition absent from the table is sent to the
fallback General Practitioner. -/
theorem C5_resolve_total :
    (∀ p ∈ specialty_map, resolve p.1 = p.2) ∧
    ∀ c : String, c ∉ specialty_map.map Prod.fst →
      resolve c = "General Practitioner" := by
  refine ⟨by decide, fun c hc => ?_⟩
  unfold resolve
  rw [lookupTable_eq_none_of_not_mem specialty_map c hc]
  rfl

/-- Witness for C5 at concrete inputs: a condition in the table and a
condition outside it. -/
theorem C5_resolve_total_witness :
    resolve "Migraine" = "Neurologist" ∧
    resolve "Common cold" = "General Practitioner" :=
  ⟨C5_resolve_total.1 ("Migraine", "Neurologist") (by decide),
   C5_resolve_total.2 "Common cold" (by decide)⟩

/-- C10: the table keys hypertension with a trailing space, so the exact
label Hypertension without the space falls through to the fallback, while
the key with the trailing space maps to Cardiologist. -/
theorem C10_hypertension_trailing_space :
    resolve "Hypertension" = "General Practitioner" ∧
    resolve "Hypertension " = "Cardiologist" ∧
    ("Hypertension ", "Cardiologist") ∈ specialty_map ∧
    "Hypertension" ∉ specialty_map.map Prod.fst := by
  refine ⟨?_, by decide, by decide, by decide⟩
  unfold resolve
  rw [lookupTable_eq_none_of_not_mem specialty_map _ (by decide)]
  rfl

/-- C6: the search step returns at most five candidates, a prefix of the
geo-search results in source order, and a response with no results or an
empty result list yields the empty candidate list rather than an error. -/
theorem C6_search_truncation (res : Option (List Doctor)) :
    (doctors_list res).length ≤ 5 ∧
    doctors_list res <+: res.getD [] ∧
    doctors_list none = ([] : List Doctor) ∧
    doctors_list (some []) = ([] : List Doctor) := by
  refine ⟨?_, ⟨(res.getD []).drop 5, List.take_append_drop 5 _⟩, rfl, rfl⟩
  simp [doctors_list]

/-- The values of the model-input vector in catalog order. -/
lemma model_input_map_snd (catalog reported : List String) :
    (model_input catalog reported).map Prod.snd =
      catalog.map fun s => if s ∈ reported then 1 else 0 := by
  simp [model_input, List.map_map, Function.comp]

/-- Counting the ones of the indicator vector counts the catalog entries
that occur among the reported symptoms. -/
lemma count_ones (reported catalog : List String) :
    ((catalog.map fun s => if s ∈ reported then (1 : Nat) else 0).count 1) =
      (catalog.filter fun s => decide (s ∈ reported)).length := by
  induction catalog with
  | nil => rfl
  | cons a t ih =>
    by_cases h : a ∈ reported <;>
      simp [h, List.count_cons, ih]

/-- With distinct catalog entries and a reported set that is a duplicate-free
subset of the catalog, the catalog entries occurring among the reported
symptoms are exactly the reported symptoms. -/
lemma length_filter_of_nodup (catalog reported : List String)
    (hsub : ∀ s ∈ reported, s ∈ catalog) (hcat : catalog.Nodup)
    (hrep : reported.Nodup) :
    (catalog.filter fun s => decide (s ∈ reported)).length = reported.length := by
  have hperm : List.Perm (catalog.filter fun s => decide (s ∈ reported)) reported := by
    rw [List.perm_ext_iff_of_nodup (hcat.filter _) hrep]
    intro a
    simp only [List.mem_filter, decide_eq_true_eq]
    exact ⟨fun h => h.2, fun h => ⟨hsub a h, h⟩⟩
  exact hperm.length_eq

/-- If every lookup before the raising candidate answers, the loop
enriches those earlier candidates in order and then stops at the raising
one, leaving it and every later candidate untouched. -/
lemma enrichLoop_abort (lookup : String → Except Unit (Option (List (String × String)))) :
    ∀ (pre : List Doctor) (d : Doctor) (post : List Doctor),
      (∀ x ∈ pre, lookup x.place_id ≠ Except.error ()) →
      lookup d.place_id = Except.error () →
      enrichLoop lookup (pre ++ d :: post) =
        (pre.map (enrichOne lookup) ++ d :: post, true) := by
  intro pre
  induction pre with
  | nil =>
    intro d post _ herr
    simp only [List.nil_append, List.map_nil, enrichLoop, herr]
  | cons a t ih =>
    intro d post hpre herr
    have ha := hpre a (List.mem_cons_self a t)
    cases hls : lookup a.place_id with
    | error e =>
      cases e
      exact absurd hls ha
    | ok res =>
      simp only [List.cons_append, enrichLoop, hls, List.map_cons, enrichOne,
        List.append_eq]
      rw [ih d post (fun x hx => hpre x (List.mem_cons_of_mem a hx)) herr]

/-- C7 (amended): a detail lookup that answers, even with an empty payload,
never aborts the batch: when no lookup raises, every candidate is enriched
in order and the loop completes. But wherever in the batch a lookup raises,
the loop stops there: the candidates before the raising one keep their
enrichment, while the raising candidate and every later one are left with
only the fields the search call provided. -/
theorem C7_enrichment_abort (lookup : String → Except Unit (Option (List (String × String))))
    (ds : List Doctor) :
    ((∀ d ∈ ds, lookup d.place_id ≠ Except.error ()) →
      enrichLoop lookup ds = (ds.map (enrichOne lookup), false)) ∧
    ∀ (pre post : List Doctor) (d : Doctor), ds = pre ++ d :: post →
      (∀ x ∈ pre, lookup x.place_id ≠ Except.error ()) →
      lookup d.place_id = Except.error () →
      enrichLoop lookup ds = (pre.map (enrichOne lookup) ++ d :: post, true) := by
  constructor
  · intro h
    induction ds with
    | nil => rfl
    | cons d t ih =>
      have hd := h d (List.mem_cons_self d t)
      cases hls : lookup d.place_id with
      | error e =>
        cases e
        exact absurd hls hd
      | ok res =>
        simp only [enrichLoop, hls, List.map_cons, enrichOne]
        rw [ih fun x hx => h x (List.mem_cons_of_mem d hx)]
  · intro pre post d hds hpre herr
    subst hds
    exact enrichLoop_abort lookup pre d post hpre herr

/-- Decidable equality for detail-lookup results, so concrete enrichment
runs can be checked by evaluation. -/
instance : DecidableEq (Except Unit (Option (List (String × String)))) := fun a b =>
  match a, b with
  | .error e, .error f => isTrue (by cases e; cases f; rfl)
  | .ok x, .ok y =>
    if h : x = y then isTrue (by rw [h]) else isFalse fun hh => h (Except.ok.inj hh)
  | .error _, .ok _ => isFalse fun hh => Except.noConfusion hh
  | .ok _, .error _ => isFalse fun hh => Except.noConfusion hh

/-- Two sample candidates as the geo-search returns them, details not yet
fetched. -/
def sampleDoc1 : Doctor := { place_id := "p1", base := [("name", "Clinic A")] }

/-- Second sample candidate. -/
def sampleDoc2 : Doctor := { place_id := "p2", base := [("name", "Clinic B")] }

/-- Third sample candidate. -/
def sampleDoc3 : Doctor := { place_id := "p3", base := [("name", "Clinic C")] }

/-- A detail-lookup environment that raises for the second candidate and
answers for every other place id. -/
def midFailLookup : String → Except Unit (Option (List (String × String))) :=
  fun pid => if pid = "p2" then .error () else .ok (some [("rating", "4")])

/-- A detail-lookup environment that never raises: one candidate gets a
payload, the others get a response without a result field. -/
def okLookup : String → Except Unit (Option (List (String × String))) :=
  fun pid => if pid = "p2" then .ok (some [("rating", "4")]) else .ok none

/-- C7 counterexample: when the detail lookup raises for the second of
three candidates, the loop aborts in the middle of the batch: the first
candidate keeps its freshly fetched details, but the third keeps none even
though its own lookup would have succeeded, refuting that the remaining
candidates are still enriched. -/
theorem C7_counterexample :
    enrichLoop midFailLookup [sampleDoc1, sampleDoc2, sampleDoc3] =
      ([{ sampleDoc1 with details := some [("rating", "4")] }, sampleDoc2, sampleDoc3],
       true) ∧
    midFailLookup sampleDoc3.place_id = .ok (some [("rating", "4")]) ∧
    sampleDoc2.details = none ∧ sampleDoc3.details = none := by
  refine ⟨by decide, by decide, rfl, rfl⟩

/-- Witness for C7 at concrete inputs: a never-raising lookup enriches both
candidates and completes; a lookup raising on the middle candidate of three
keeps the first enriched and aborts before the rest. -/
theorem C7_enrichment_abort_witness :
    enrichLoop okLookup [sampleDoc1, sampleDoc2] =
      ([sampleDoc1, sampleDoc2].map (enrichOne okLookup), false) ∧
    enrichLoop midFailLookup [sampleDoc1, sampleDoc2, sampleDoc3] =
      ([sampleDoc1].map (enrichOne midFailLookup) ++ sampleDoc2 :: [sampleDoc3], true) :=
  ⟨(C7_enrichment_abort okLookup [sampleDoc1, sampleDoc2]).1 (by decide),
   (C7_enrichment_abort midFailLookup [sampleDoc1, sampleDoc2, sampleDoc3]).2
     [sampleDoc1] [sampleDoc3] sampleDoc2 rfl (by decide) (by decide)⟩

/-- C8: for a non-empty duplicate-free reported set included in a
duplicate-free catalog (and a non-empty location, which the same input
guard requires), the handler builds the dense vector: its length is the
catalog size, every value is 0 or 1, position i holds 1 exactly when the
i-th catalog symptom is reported, and the number of ones is the number of
reported symptoms. -/
theorem C8_vectorize_dense (catalog reported : List String) (loc : String)
    (hne : reported ≠ []) (hsub : ∀ s ∈ reported, s ∈ catalog)
    (hcat : catalog.Nodup) (hrep : reported.Nodup) (hloc : loc ≠ "") :
    vectorizeStep catalog reported loc = .vector (model_input catalog reported) ∧
    (model_input catalog reported).length = catalog.length ∧
    ((model_input catalog reported).map Prod.snd).count 1 = reported.length ∧
    (∀ (i : Nat) (s : String), catalog[i]? = some s →
      ((model_input catalog reported).map Prod.snd)[i]? =
        some (if s ∈ reported then 1 else 0)) ∧
    ∀ p ∈ model_input catalog reported, p.2 = 0 ∨ p.2 = 1 := by
  refine ⟨?_, ?_, ?_, ?_, ?_⟩
  · unfold vectorizeStep
    rw [if_neg]
    push_neg
    exact ⟨hne, hloc⟩
  · simp [model_input]
  · rw [model_input_map_snd, count_ones]
    exact length_filter_of_nodup catalog reported hsub hcat hrep
  · intro i s hi
    rw [model_input_map_snd, List.getElem?_map, hi]
    rfl
  · intro p hp
    simp only [model_input, List.mem_map] at hp
    obtain ⟨s, _, rfl⟩ := hp
    by_cases h : s ∈ reported <;> simp [h]

/-- Witness for C8 at a concrete catalog and reported set. -/
theorem C8_vectorize_dense_witness :
    vectorizeStep ["itching", "skin_rash", "cough"] ["itching", "skin_rash"] "Lucknow" =
      .vector (model_input ["itching", "skin_rash", "cough"] ["itching", "skin_rash"]) ∧
    ((model_input ["itching", "skin_rash", "cough"] ["itching", "skin_rash"]).map
      Prod.snd).count 1 = 2 :=
  ⟨(C8_vectorize_dense ["itching", "skin_rash", "cough"] ["itching", "skin_rash"] "Lucknow"
      (by decide) (by decide) (by decide) (by decide) (by decide)).1,
   (C8_vectorize_dense ["itching", "skin_rash", "cough"] ["itching", "skin_rash"] "Lucknow"
      (by decide) (by decide) (by decide) (by decide) (by decide)).2.2.1⟩

/-- C9 (amended): the handler rejects an empty reported set before any
vector is built (with a warning, not an invalid-input error), and reported
identifiers outside the catalog are silently ignored: the vector built
from the reported set equals the one built from its restriction to the
catalog. -/
theorem C9_empty_rejected_unknown_ignored (catalog reported : List String)
    (loc : String) :
    (reported = [] → vectorizeStep catalog reported loc = .rejectedEmptyInput) ∧
    (reported ≠ [] → loc ≠ "" →
      vectorizeStep catalog reported loc = .vector (model_input catalog reported)) ∧
    model_input catalog reported =
      model_input catalog (reported.filter fun s => decide (s ∈ catalog)) := by
  refine ⟨fun h => ?_, fun h1 h2 => ?_, ?_⟩
  · simp [vectorizeStep, h]
  · unfold vectorizeStep
    rw [if_neg]
    push_neg
    exact ⟨h1, h2⟩
  · unfold model_input
    apply List.map_congr_left
    intro s hs
    have hmem : (s ∈ reported.filter fun x => decide (x ∈ catalog)) ↔ s ∈ reported := by
      simp [List.mem_filter, hs]
    by_cases h : s ∈ reported <;> simp [h, hmem]

/-- C9 counterexample: a reported set containing an identifier outside the
catalog is not rejected; the vector is built and the unknown identifier is
silently dropped. -/
theorem C9_counterexample :
    vectorizeStep ["itching", "cough"] ["itching", "zzz"] "Lucknow" =
      .vector [("itching", 1), ("cough", 0)] ∧
    vectorizeStep ["itching", "cough"] ["itching", "zzz"] "Lucknow" ≠
      .invalidInputError := by
  exact ⟨by decide, by decide⟩

/-- Witness for C9 at concrete inputs: the empty reported set is rejected,
and an out-of-catalog identifier leaves the vector unchanged. -/
theorem C9_empty_rejected_unknown_ignored_witness :
    vectorizeStep ["itching"] [] "Lucknow" = .rejectedEmptyInput ∧
    model_input ["itching", "cough"] ["itching", "zzz"] =
      model_input ["itching", "cough"]
        (["itching", "zzz"].filter fun s => decide (s ∈ ["itching", "cough"])) :=
  ⟨(C9_empty_rejected_unknown_ignored ["itching"] [] "Lucknow").1 rfl,
   (C9_empty_rejected_unknown_ignored ["itching", "cough"] ["itching", "zzz"]
      "Lucknow").2.2⟩

/-- C4: with a non-empty patient name (and a requested date at or after
today, which the date widget enforces) the submit handler appends exactly
one new record whose status is Pending, and Pending is the only status a
booked record can carry; with an empty patient name the handler warns and
writes nothing. -/
theorem C4_create_pending (store : Store) (freshId ue uid pname dname pid : String)
    (d t today : Nat) (_hdate : today ≤ d) :
    (pname = "" →
      bookSubmit store freshId ue uid pname dname pid d t = (store, .nameWarning)) ∧
    (pname ≠ "" →
      bookSubmit store freshId ue uid pname dname pid d t =
        (store ++ [(freshId,
          { patient_email := ue, patient_id := uid, patient_name := pname,
            doctor_name := dname, doctor_place_id := pid, appointment_date := d,
            appointment_time := t, status := "Pending" })],
         .booked
          { patient_email := ue, patient_id := uid, patient_name := pname,
            doctor_name := dname, doctor_place_id := pid, appointment_date := d,
            appointment_time := t, status := "Pending" })) ∧
    ∀ r : AppointmentRecord,
      (bookSubmit store freshId ue uid pname dname pid d t).2 = .booked r →
      r.status = "Pending" := by
  refine ⟨fun h => ?_, fun h => ?_, fun r hr => ?_⟩
  · simp [bookSubmit, h]
  · simp [bookSubmit, h]
  · by_cases h : pname = ""
    · simp [bookSubmit, h] at hr
    · simp only [bookSubmit, if_neg h] at hr
      cases hr
      rfl

/-- Witness for C4 at concrete inputs: a successful booking and an
empty-name rejection. -/
theorem C4_create_pending_witness :
    bookSubmit [] "id1" "asha@x" "u1" "Asha" "Clinic A" "p1" 10 9 =
      ([("id1",
        { patient_email := "asha@x", patient_id := "u1", patient_name := "Asha",
          doctor_name := "Clinic A", doctor_place_id := "p1", appointment_date := 10,
          appointment_time := 9, status := "Pending" })],
       .booked
        { patient_email := "asha@x", patient_id := "u1", patient_name := "Asha",
          doctor_name := "Clinic A", doctor_place_id := "p1", appointment_date := 10,
          appointment_time := 9, status := "Pending" }) ∧
    bookSubmit [] "id1" "asha@x" "u1" "" "Clinic A" "p1" 10 9 = ([], .nameWarning) :=
  ⟨(C4_create_pending [] "id1" "asha@x" "u1" "Asha" "Clinic A" "p1" 10 9 10
      (by decide)).2.1 (by decide),
   (C4_create_pending [] "id1" "asha@x" "u1" "" "Clinic A" "p1" 10 9 10
      (by decide)).1 rfl⟩

/-- A Pending appointment of the doctor owning place id P. -/
def recPending : AppointmentRecord :=
  { patient_email := "asha@x", patient_id := "u1", patient_name := "Asha",
    doctor_name := "Clinic A", doctor_place_id := "P",
    appointment_date := 10, appointment_time := 9, status := "Pending" }

/-- The same appointment after an Accept. -/
def recAccepted : AppointmentRecord := { recPending with status := "Accepted" }

/-- The same appointment after a Decline. -/
def recDeclined : AppointmentRecord := { recPending with status := "Declined" }

/-- C1 (amended): when the dashboard lists the record, a Pending snapshot
status lets the click run the status update, and a terminal snapshot status
offers no buttons and leaves the store untouched; no invalid-transition
error exists in the code, and the update itself is not guarded on the
stored status. -/
theorem C1_terminal_guard (snapshot store : Store) (pid aid new_status : String)
    (r : AppointmentRecord)
    (hfind : (visibleAppointments snapshot pid).find? (fun p => p.1 = aid) =
      some (aid, r)) :
    (r.status = "Pending" →
      dashboardTransition snapshot store pid aid new_status =
        (.updated, updateStatus store aid new_status)) ∧
    (r.status ≠ "Pending" →
      dashboardTransition snapshot store pid aid new_status = (.notOffered, store)) := by
  unfold dashboardTransition
  rw [hfind]
  exact ⟨fun h => by simp [h], fun h => by simp [h]⟩

/-- Witness for C1 at concrete records: the first transition out of
Pending runs the update, and on the now-terminal record (freshly re-read
after the rerun) no transition is offered. -/
theorem C1_terminal_guard_witness :
    dashboardTransition [("a", recPending)] [("a", recPending)] "P" "a" "Accepted" =
      (.updated, updateStatus [("a", recPending)] "a" "Accepted") ∧
    dashboardTransition [("a", recAccepted)] [("a", recAccepted)] "P" "a" "Declined" =
      (.notOffered, [("a", recAccepted)]) :=
  ⟨(C1_terminal_guard [("a", recPending)] [("a", recPending)] "P" "a" "Accepted"
      recPending (by decide)).1 (by decide),
   (C1_terminal_guard [("a", recAccepted)] [("a", recAccepted)] "P" "a" "Declined"
      recAccepted (by decide)).2 (by decide)⟩

/-- C1 counterexample: a transition attempt rendered from a stale Pending
snapshot, applied after the record has already been Accepted, neither fails
nor leaves the record unchanged: the unconditional update overwrites the
terminal status with Declined. -/
theorem C1_stale_overwrite_counterexample :
    dashboardTransition [("a", recPending)] [("a", recAccepted)] "P" "a" "Declined" =
      (.updated, [("a", recDeclined)]) ∧
    recAccepted.status = "Accepted" ∧ recDeclined.status = "Declined" := by
  refine ⟨by decide, rfl, rfl⟩

/-- C2: the status write is an unguarded single-field update, so two
providers racing from Pending snapshots both get their write accepted: the
first click accepts the record, the second click, still rendered from the
old Pending snapshot, overwrites it to Declined, and neither observes an
error. The final conjunct shows the store write is unconditional on the
current status. -/
theorem C2_race_last_write_wins :
    dashboardTransition [("a", recPending)] [("a", recPending)] "P" "a" "Accepted" =
      (.updated, [("a", recAccepted)]) ∧
    dashboardTransition [("a", recPending)] [("a", recAccepted)] "P" "a" "Declined" =
      (.updated, [("a", recDeclined)]) ∧
    updateStatus [("a", recAccepted)] "a" "Declined" = [("a", recDeclined)] := by
  refine ⟨by decide, by decide, by decide⟩

/-- C3 (amended): a record whose doctor place id differs from the actor's
is filtered out of the dashboard query, so no transition on it is possible
and the store is untouched (no authorization error is raised, the record is
simply not visible); and the status update mutates only the status field of
the targeted record, keeping every other field and every other record. -/
theorem C3_filter_and_frame (snapshot store : Store) (pid aid new_status : String) :
    ((∀ p ∈ snapshot, p.1 = aid → p.2.doctor_place_id ≠ pid) →
      dashboardTransition snapshot store pid aid new_status = (.notVisible, store)) ∧
    (∀ (i : Nat) (p : String × AppointmentRecord), store[i]? = some p →
      ∃ q : String × AppointmentRecord,
        (updateStatus store aid new_status)[i]? = some q ∧ q.1 = p.1 ∧
        sameExceptStatus p.2 q.2 ∧ (p.1 ≠ aid → q = p) ∧
        (p.1 = aid → q.2.status = new_status)) ∧
    ∀ s : Store, dashboardTransition snapshot store pid aid new_status = (.updated, s) →
      s = updateStatus store aid new_status := by
  refine ⟨fun h => ?_, fun i p hp => ?_, fun s hs => ?_⟩
  · have hnone : (visibleAppointments snapshot pid).find? (fun p => p.1 = aid) = none := by
      rw [List.find?_eq_none]
      intro x hx
      rw [visibleAppointments, List.mem_filter] at hx
      simp only [decide_eq_true_eq] at hx ⊢
      exact fun hxa => h x hx.1 hxa hx.2
    unfold dashboardTransition
    rw [hnone]
  · by_cases ha : p.1 = aid
    · refine ⟨(p.1, { p.2 with status := new_status }), ?_, rfl, ?_, ?_, fun _ => rfl⟩
      · rw [updateStatus, List.getElem?_map, hp]
        simp [ha]
      · exact ⟨rfl, rfl, rfl, rfl, rfl, rfl, rfl⟩
      · exact fun hne => absurd ha hne
    · refine ⟨p, ?_, rfl, ?_, fun _ => rfl, fun haa => absurd haa ha⟩
      · rw [updateStatus, List.getElem?_map, hp]
        simp [ha]
      · exact ⟨rfl, rfl, rfl, rfl, rfl, rfl, rfl⟩
  · unfold dashboardTransition at hs
    split at hs
    · simp at hs
    · split at hs
      · simp only [Prod.mk.injEq] at hs
        exact hs.2.symm
      · simp at hs

/-- C3 counterexample: an actor whose place id Q differs from the stored
doctor place id P gets the outcome that the record is not visible at all;
the attempt does not fail with an authorization error, which the code never
produces. -/
theorem C3_counterexample :
    dashboardTransition [("a", recPending)] [("a", recPending)] "Q" "a" "Accepted" =
      (.notVisible, [("a", recPending)]) ∧
    Outcome.notVisible ≠ Outcome.authorizationError := by
  refine ⟨by decide, by decide⟩

/-- Witness for C3 at concrete records: the mismatched actor sees nothing
and the store stays unchanged; the frame property of the update is checked
by evaluation. -/
theorem C3_filter_and_frame_witness :
    dashboardTransition [("a", recPending)] [("a", recPending)] "Q" "a" "Accepted" =
      (.notVisible, [("a", recPending)]) ∧
    updateStatus [("a", recPending)] "a" "Accepted" = [("a", recAccepted)] :=
  ⟨(C3_filter_and_frame [("a", recPending)] [("a", recPending)] "Q" "a" "Accepted").1
      (by decide),
   by decide⟩

/-- Witness for C6 at a concrete oversized result list and at an absent
results field. -/
theorem C6_search_truncation_witness :
    (doctors_list (some [sampleDoc1, sampleDoc2, sampleDoc1, sampleDoc2, sampleDoc1,
      sampleDoc2])).length ≤ 5 ∧
    doctors_list none = ([] : List Doctor) :=
  ⟨(C6_search_truncation (some [sampleDoc1, sampleDoc2, sampleDoc1, sampleDoc2,
      sampleDoc1, sampleDoc2])).1,
   (C6_search_truncation none).2.2.1⟩

end HealthNav
